import Mathlib

/-!
# Verification of the AzureTRE authorization core

Shallow embedding of `src/api_app/services/aad_authentication.py`
(`AzureADAuthorization`): the request-time authorization gate, the
workspace-role resolver, the signing-key cache and the base64url padding
helper, together with theorems settling the specification claims.

Python dicts with string keys are embedded as association lists
(`List (String × α)`) with first-match lookup and in-place-replace
insertion, matching dict semantics (keys are unique in every dict the
code builds). Python exceptions are embedded as `Except` / explicit
result constructors.
-/

namespace AzureTRE

/-- First-match association-list lookup, embedding Python `d[k]` / `k in d`
on string-keyed dicts. -/
def alookup {α : Type} : List (String × α) → String → Option α
  | [], _ => none
  | (k, v) :: rest, key => if k = key then some v else alookup rest key

/-- Insert-or-replace on an association list, embedding Python dict
assignment `d[k] = v`. -/
def dictSet {α : Type} : List (String × α) → String → α → List (String × α)
  | [], k, v => [(k, v)]
  | (k', v') :: rest, k, v =>
    if k' = k then (k, v) :: rest else (k', v') :: dictSet rest k v

/-- `AzureADAuthorization.TRE_CORE_ROLES` (line 34). -/
def TRE_CORE_ROLES : List String := ["TREAdmin", "TREUser"]

/-- `AzureADAuthorization.WORKSPACE_ROLES_DICT` (line 35): maps a workspace
role name to the workspace-property key holding that role's id. -/
def WORKSPACE_ROLES_DICT : List (String × String) :=
  [("WorkspaceOwner", "app_role_id_workspace_owner"),
   ("WorkspaceResearcher", "app_role_id_workspace_researcher"),
   ("AirlockManager", "app_role_id_workspace_airlock_manager")]

/-- `any(role in rr for role in roles)` as used at lines 54, 66 and 85:
true iff some element of `roles` is a member of `rr`. -/
def any_role_in (roles : List String) (rr : List String) : Bool :=
  roles.any (fun role => decide (role ∈ rr))

/-- Modelled from the spec: `RoleAssignment` (`models/domain/authentication.py`
is not under `src/`). Per the spec it is a value type whose equality is
structural on `(resourceId, roleId)`. -/
structure RoleAssignment where
  resource_id : String
  role_id : String
deriving DecidableEq, Repr

/-- A workspace, reduced to the `properties` dict that
`aad_authentication.py` reads (`client_id`, `sp_id` and the three
`app_role_id_workspace_*` keys, all strings). -/
structure Workspace where
  properties : List (String × String)
deriving DecidableEq, Repr

/-- `models/domain/workspace.WorkspaceRole` as consumed by
`get_workspace_role`. -/
inductive WorkspaceRole where
  | NoRole
  | AirlockManager
  | Researcher
  | Owner
deriving DecidableEq, Repr

/-- Errors raised by the access-service helpers:
`authConfigValidationError` is `AuthConfigValidationError`; `pyError` is
an uncaught Python exception escaping the helper (e.g. `IndexError`). -/
inductive AccessError where
  | authConfigValidationError
  | pyError
deriving DecidableEq, Repr

/-- `AzureADAuthorization.get_workspace_role` (lines 358-374): raise
`AuthConfigValidationError` if `sp_id` or any of the three
`WORKSPACE_ROLES_DICT` property keys is missing from the workspace
properties, else test membership of `(sp_id, role-id)` in the caller's
role assignments, owner first, then researcher, then airlock manager,
defaulting to `NoRole`. -/
def get_workspace_role (workspace : Workspace)
    (user_role_assignments : List RoleAssignment) :
    Except AccessError WorkspaceRole :=
  match alookup workspace.properties "sp_id" with
  | none => .error .authConfigValidationError
  | some workspace_sp_id =>
    match alookup workspace.properties "app_role_id_workspace_owner",
          alookup workspace.properties "app_role_id_workspace_researcher",
          alookup workspace.properties "app_role_id_workspace_airlock_manager" with
    | some owner_id, some researcher_id, some airlock_id =>
      if (⟨workspace_sp_id, owner_id⟩ : RoleAssignment) ∈ user_role_assignments then
        .ok .Owner
      else if (⟨workspace_sp_id, researcher_id⟩ : RoleAssignment) ∈ user_role_assignments then
        .ok .Researcher
      else if (⟨workspace_sp_id, airlock_id⟩ : RoleAssignment) ∈ user_role_assignments then
        .ok .AirlockManager
      else
        .ok .NoRole
    | _, _, _ => .error .authConfigValidationError

/-- `AzureADAuthorization._ensure_b64padding` (lines 136-145): append
`len(key) % 4` padding characters. The Python code round-trips through
`key.encode('utf-8')`; key fields are ASCII, for which the byte length
equals the character length. -/
def ensure_b64padding (key : String) : String :=
  key ++ String.mk (List.replicate (key.length % 4) '=')

/-- The base64url digit value of a character ('-' and '_' as mapped by
`urlsafe_b64decode`, plus the standard '+' and '/'); `none` for every
character outside the alphabet. -/
def b64Index (c : Char) : Option Nat :=
  if 'A' ≤ c ∧ c ≤ 'Z' then some (c.toNat - 65)
  else if 'a' ≤ c ∧ c ≤ 'z' then some (c.toNat - 71)
  else if '0' ≤ c ∧ c ≤ '9' then some (c.toNat + 4)
  else if c = '+' ∨ c = '-' then some 62
  else if c = '/' ∨ c = '_' then some 63
  else none

/-- Modelled from the spec: the lenient base64 decoder of Python's
`base64.urlsafe_b64decode` (stdlib, not under `src/`), which line 160
applies to the padded key fields and which the spec requires to "still
decode successfully". Faithful to CPython's non-strict `a2b_base64`:
characters outside the alphabet are discarded; a padding character is
ignored before two data characters of the current quad and terminates
decoding once the quad is completed by padding; input ending with an
incomplete quad fails (`none`). `quadPos` counts data characters of the
current quad, `pads` padding characters seen for it, `bitbuf`/`bits` the
pending bits, `out` the emitted bytes in reverse. -/
def a2bBase64 : List Char → Nat → Nat → Nat → Nat → List Nat → Option (List Nat)
  | [], quadPos, _, _, _, out => if quadPos = 0 then some out.reverse else none
  | c :: rest, quadPos, pads, bitbuf, bits, out =>
    if c = '=' then
      if 2 ≤ quadPos then
        if 4 ≤ quadPos + (pads + 1) then some out.reverse
        else a2bBase64 rest quadPos (pads + 1) bitbuf bits out
      else a2bBase64 rest quadPos pads bitbuf bits out
    else
      match b64Index c with
      | none => a2bBase64 rest quadPos pads bitbuf bits out
      | some v =>
        if 8 ≤ bits + 6 then
          a2bBase64 rest ((quadPos + 1) % 4) pads (bitbuf * 64 + v) (bits + 6 - 8)
            (((bitbuf * 64 + v) / 2 ^ (bits + 6 - 8)) % 256 :: out)
        else
          a2bBase64 rest ((quadPos + 1) % 4) pads (bitbuf * 64 + v) (bits + 6) out

/-- Modelled from the spec: `base64.urlsafe_b64decode` on a string,
returning the decoded bytes, or `none` when CPython's decoder raises. -/
def urlsafe_b64decode (s : String) : Option (List Nat) :=
  a2bBase64 s.data 0 0 0 0 []

/-- `int.from_bytes(bs, "big")` (lines 160-161). -/
def bytesToNatBE (bs : List Nat) : Nat :=
  bs.foldl (fun acc b => acc * 256 + b) 0

end AzureTRE

namespace AzureTRE

/-- Scanning a run of in-alphabet data characters never terminates the
decoder, touches `pads`, or changes its success/failure behaviour on the
remaining input beyond advancing the quad position by the run length. -/
theorem a2bBase64_scan_valid (data : List Char) :
    ∀ (tail : List Char) (qp pads bitbuf bits : Nat) (out : List Nat),
    qp < 4 →
    (∀ c ∈ data, (b64Index c).isSome) →
    ∃ bitbuf2 bits2 out2,
      a2bBase64 (data ++ tail) qp pads bitbuf bits out
        = a2bBase64 tail ((qp + data.length) % 4) pads bitbuf2 bits2 out2 := by
  induction data with
  | nil =>
    intro tail qp pads bitbuf bits out hqp _
    exact ⟨bitbuf, bits, out, by simp [Nat.mod_eq_of_lt hqp]⟩
  | cons c data ih =>
    intro tail qp pads bitbuf bits out hqp hval
    have hv : (b64Index c).isSome := hval c (by simp)
    obtain ⟨v, hv⟩ := Option.isSome_iff_exists.mp hv
    have hne : ¬ (c = '=') := by
      intro h
      rw [h] at hv
      simp [b64Index] at hv
    have hqp2 : (qp + 1) % 4 < 4 := Nat.mod_lt _ (by norm_num)
    have hval2 : ∀ x ∈ data, (b64Index x).isSome := fun x hx => hval x (by simp [hx])
    rw [List.cons_append]
    simp only [a2bBase64, hv, if_neg hne]
    by_cases hb : 8 ≤ bits + 6
    · rw [if_pos hb]
      obtain ⟨b2, t2, o2, heq⟩ := ih tail ((qp + 1) % 4) pads (bitbuf * 64 + v)
        (bits + 6 - 8) (((bitbuf * 64 + v) / 2 ^ (bits + 6 - 8)) % 256 :: out) hqp2 hval2
      refine ⟨b2, t2, o2, ?_⟩
      rw [heq]
      have harith : ((qp + 1) % 4 + data.length) % 4 = (qp + (c :: data).length) % 4 := by
        simp only [List.length_cons]
        omega
      rw [harith]
    · rw [if_neg hb]
      obtain ⟨b2, t2, o2, heq⟩ := ih tail ((qp + 1) % 4) pads (bitbuf * 64 + v)
        (bits + 6) out hqp2 hval2
      refine ⟨b2, t2, o2, ?_⟩
      rw [heq]
      have harith : ((qp + 1) % 4 + data.length) % 4 = (qp + (c :: data).length) % 4 := by
        simp only [List.length_cons]
        omega
      rw [harith]

/-- C5 counterexample: for the unpadded input `"abc"` the helper appends
`3 % 4 = 3` padding characters, so the result is `"abc==="` — whose
length, 6, is not a multiple of 4. -/
theorem ensure_b64padding_counterexample :
    ensure_b64padding "abc" = "abc===" ∧ ¬ ((ensure_b64padding "abc").length % 4 = 0) := by
  constructor
  · rfl
  · decide

/-- C5 (amended): the helper appends `length % 4` padding characters; the
result's length is not always a multiple of 4 (for `"abc"` it is 6), yet
for every key over the base64url alphabet whose length is not `1 mod 4`
(every valid unpadded base64url encoding) the padding appended is
sufficient — possibly in excess — for the lenient base64url decoder, so
decoding succeeds. -/
theorem ensure_b64padding_decodes (key : String)
    (halpha : ∀ c ∈ key.data, (b64Index c).isSome)
    (hlen : key.length % 4 ≠ 1) :
    (urlsafe_b64decode (ensure_b64padding key)).isSome := by
  have hdata : (ensure_b64padding key).data
      = key.data ++ List.replicate (key.length % 4) '=' := by
    simp [ensure_b64padding, String.data_append]
  have hlen2 : key.length = key.data.length := rfl
  have hmain : urlsafe_b64decode (ensure_b64padding key)
      = a2bBase64 (key.data ++ List.replicate (key.length % 4) '=') 0 0 0 0 [] := by
    rw [urlsafe_b64decode, hdata]
  rw [hmain]
  obtain ⟨b2, t2, o2, heq⟩ := a2bBase64_scan_valid key.data
    (List.replicate (key.length % 4) '=') 0 0 0 0 [] (by norm_num) halpha
  rw [heq]
  rw [Nat.zero_add, ← hlen2]
  have h4 : key.length % 4 = 0 ∨ key.length % 4 = 2 ∨ key.length % 4 = 3 := by omega
  rcases h4 with h | h | h <;> rw [h] <;> simp [a2bBase64]

/-- C5 witness: the spec's scenario input `"abc"` (length `3 mod 4`)
decodes successfully after padding restoration. -/
theorem ensure_b64padding_decodes_witness :
    (urlsafe_b64decode (ensure_b64padding "abc")).isSome :=
  ensure_b64padding_decodes "abc" (by decide) (by decide)

end AzureTRE

namespace AzureTRE

/-- One record of the provider's key set: `kid` plus the base64url
modulus `n` and exponent `e` (lines 158-164). -/
structure JWKey where
  kid : String
  n : String
  e : String
deriving DecidableEq, Repr

/-- The key-set endpoint's JSON body when the response is usable
(`response.ok` and a `keys` field present, lines 157-158); an unusable
response is embedded as `none` at the call site. -/
structure JWKSKeys where
  keys : List JWKey
deriving DecidableEq, Repr

/-- The openid-configuration metadata document: its optional `jwks_uri`
field (line 154); a failed metadata request is `none` at the call
site (line 153). -/
structure OpenIdMetadata where
  jwks_uri : Option String
deriving DecidableEq, Repr

/-- The cached key material: the `(n, e)` integer pair of
`rsa.PublicKey(n, e)` whose PKCS#1 PEM serialisation line 164 stores;
`save_pkcs1` is a deterministic injective encoding of that pair. -/
abbrev KeyMaterial := Nat × Nat

/-- Errors escaping `_get_token_key`: the `KeyError` from the final dict
access (line 166) — the spec's `KeyNotFound` — and a `binascii` decoding
error escaping the refresh loop (lines 160-161). -/
inductive KeyLookupError where
  | keyNotFound
  | decodeError
deriving DecidableEq, Repr

/-- `int.from_bytes(base64.urlsafe_b64decode(self._ensure_b64padding(s)), "big")`
(lines 160-161); `none` when the decoder raises. -/
def decode_key_field (s : String) : Option Nat :=
  (urlsafe_b64decode (ensure_b64padding s)).map bytesToNatBE

/-- The refresh loop of `_get_token_key` (lines 159-164): store material
under every fetched `kid`, replacing an existing entry; a key field that
fails to decode aborts the loop with the exception flag set, keeping the
entries already written. -/
def cache_fetched_keys :
    List (String × KeyMaterial) → List JWKey → List (String × KeyMaterial) × Bool
  | cache, [] => (cache, false)
  | cache, key :: rest =>
    match decode_key_field key.n, decode_key_field key.e with
    | some n, some e => cache_fetched_keys (dictSet cache key.kid (n, e)) rest
    | _, _ => (cache, true)

/-- `AzureADAuthorization._jwt_keys[key_id]` (line 166): the final dict
access, raising `KeyError` — the `KeyNotFound` failure — when absent. -/
def cache_lookup_result (cache : List (String × KeyMaterial)) (key_id : String) :
    Except KeyLookupError KeyMaterial :=
  match alookup cache key_id with
  | some material => .ok material
  | none => .error .keyNotFound

/-- `AzureADAuthorization._get_token_key` (lines 147-166) with the two
network responses passed explicitly: on a cache miss fetch the metadata
document (the returned `Nat` counts these metadata-endpoint fetches),
extract `jwks_uri`, fetch and cache the key set, then perform the plain
dict access on whatever the cache now holds. Returns the updated shared
cache, the fetch count and the outcome. -/
def get_token_key (metadata : Option OpenIdMetadata)
    (jwks_fetch : String → Option JWKSKeys)
    (cache : List (String × KeyMaterial)) (key_id : String) :
    List (String × KeyMaterial) × Nat × Except KeyLookupError KeyMaterial :=
  if (alookup cache key_id).isSome then
    (cache, 0, cache_lookup_result cache key_id)
  else
    match (match metadata with
           | some md => md.jwks_uri
           | none => none) with
    | none => (cache, 1, cache_lookup_result cache key_id)
    | some uri =>
      match jwks_fetch uri with
      | none => (cache, 1, cache_lookup_result cache key_id)
      | some resp =>
        match cache_fetched_keys cache resp.keys with
        | (cache2, true) => (cache2, 1, .error .decodeError)
        | (cache2, false) => (cache2, 1, cache_lookup_result cache2 key_id)

end AzureTRE

namespace AzureTRE

/-- C6 counterexample: key id `"A"` is cached by a first lookup; a later
lookup of the still-missing key id `"B"` triggers a refresh whose loop
rewrites the entry of every fetched key, and the provider now publishes
different material for `"A"` — so the cached entry for `"A"` is
replaced, not write-once. -/
theorem jwt_keys_not_write_once :
    alookup (get_token_key (some ⟨some "jwks"⟩)
        (fun _ => some ⟨[⟨"A", "ab", "ab"⟩]⟩) [] "A").1 "A"
      = some (105, 105)
    ∧ alookup (get_token_key (some ⟨some "jwks"⟩)
        (fun _ => some ⟨[⟨"A", "cd", "ab"⟩, ⟨"B", "ab", "ab"⟩]⟩)
        (get_token_key (some ⟨some "jwks"⟩)
          (fun _ => some ⟨[⟨"A", "ab", "ab"⟩]⟩) [] "A").1 "B").1 "A"
      = some (113, 105)
    ∧ alookup (get_token_key (some ⟨some "jwks"⟩)
        (fun _ => some ⟨[⟨"A", "cd", "ab"⟩, ⟨"B", "ab", "ab"⟩]⟩)
        (get_token_key (some ⟨some "jwks"⟩)
          (fun _ => some ⟨[⟨"A", "ab", "ab"⟩]⟩) [] "A").1 "B").1 "A"
      ≠ alookup (get_token_key (some ⟨some "jwks"⟩)
        (fun _ => some ⟨[⟨"A", "ab", "ab"⟩]⟩) [] "A").1 "A" := by
  refine ⟨rfl, rfl, ?_⟩
  decide

/-- C6 (amended): a lookup of a key id already in the cache performs no
fetch, leaves the cache unchanged and returns the cached material — so
repeated lookups of a cached id return the same material without
re-fetching; entries are only rewritten by a refresh that a *different*,
missing key id triggers. -/
theorem get_token_key_cached_hit (metadata : Option OpenIdMetadata)
    (jwks_fetch : String → Option JWKSKeys)
    (cache : List (String × KeyMaterial)) (key_id : String)
    (material : KeyMaterial)
    (h : alookup cache key_id = some material) :
    get_token_key metadata jwks_fetch cache key_id = (cache, 0, .ok material) := by
  simp [get_token_key, cache_lookup_result, h]

/-- C6 witness: a concrete cached key id is served from the cache with
zero fetches. -/
theorem get_token_key_cached_hit_witness :
    get_token_key (some ⟨some "jwks"⟩) (fun _ => none)
      [("A", (5, 7))] "A" = ([("A", (5, 7))], 0, .ok (5, 7)) :=
  get_token_key_cached_hit (some ⟨some "jwks"⟩) (fun _ => none)
    [("A", (5, 7))] "A" (5, 7) rfl

/-- C7: a key id absent before the refresh and still absent from the key
set the refresh fetched and stored fails with the `KeyNotFound` error
(`KeyError` on the final dict access), after exactly one refresh — the
lookup is re-attempted once, not looped. -/
theorem get_token_key_miss_after_refresh (uri : String)
    (jwks_fetch : String → Option JWKSKeys) (resp : JWKSKeys)
    (cache cache2 : List (String × KeyMaterial)) (key_id : String)
    (hf : jwks_fetch uri = some resp)
    (hmiss : alookup cache key_id = none)
    (href : cache_fetched_keys cache resp.keys = (cache2, false))
    (hstill : alookup cache2 key_id = none) :
    get_token_key (some ⟨some uri⟩) jwks_fetch cache key_id
      = (cache2, 1, .error .keyNotFound) := by
  simp [get_token_key, hmiss, hf, href, cache_lookup_result, hstill]

/-- C7 witness: the provider publishes only key `"A"`; looking up `"B"`
refreshes once, stores `"A"`, and fails with `KeyNotFound`. -/
theorem get_token_key_miss_after_refresh_witness :
    get_token_key (some ⟨some "jwks"⟩)
      (fun _ => some ⟨[⟨"A", "ab", "ab"⟩]⟩) [] "B"
      = ([("A", (105, 105))], 1, .error .keyNotFound) :=
  get_token_key_miss_after_refresh "jwks"
    (fun _ => some ⟨[⟨"A", "ab", "ab"⟩]⟩) ⟨[⟨"A", "ab", "ab"⟩]⟩
    [] [("A", (105, 105))] "B" rfl rfl rfl rfl

end AzureTRE

namespace AzureTRE

/-- One entry of the service principal's `appRoles` list: its role
`value` (name) and role `id` (lines 282-284). -/
structure AppRoleRec where
  value : String
  id : String
deriving DecidableEq, Repr

/-- The first record of the service-principal lookup response
(`graph_data['value'][0]`, lines 278-279). -/
structure AppRec where
  id : String
  servicePrincipalNames : List String
  appRoles : List AppRoleRec
deriving DecidableEq, Repr

/-- The directory response of `_get_app_sp_graph_data` (lines 210-214):
its optional `value` list. -/
structure SpGraphData where
  value : Option (List AppRec)
deriving DecidableEq, Repr

/-- `AzureADAuthorization._get_app_auth_info` (lines 272-286) with the
directory response passed as a function of the client id:
`AuthConfigValidationError` when `value` is absent or empty; the
uncaught `IndexError` on `servicePrincipalNames[0]` is `pyError`;
otherwise build `auth_info` from `sp_id`, `scope_id` and every app role
whose name is a `WORKSPACE_ROLES_DICT` key. -/
def get_app_auth_info (graph : String → SpGraphData) (client_id : String) :
    Except AccessError (List (String × String)) :=
  match (graph client_id).value with
  | none => .error .authConfigValidationError
  | some [] => .error .authConfigValidationError
  | some (app_info :: _) =>
    match app_info.servicePrincipalNames with
    | [] => .error .pyError
    | scope_id :: _ =>
      .ok (app_info.appRoles.foldl
        (fun auth_info app_role =>
          match alookup WORKSPACE_ROLES_DICT app_role.value with
          | some prop_name => dictSet auth_info prop_name app_role.id
          | none => auth_info)
        [("sp_id", app_info.id), ("scope_id", scope_id)])

/-- `AzureADAuthorization.extract_workspace_auth_information`
(lines 325-340): fail without a `client_id`; when it is the sentinel
`"auto_create"`, return the initial empty `auth_info` untouched;
otherwise call `_get_app_auth_info` and require all three
`WORKSPACE_ROLES_DICT` property keys in the result. The returned `Nat`
counts the `_get_app_auth_info` directory calls made. -/
def extract_workspace_auth_information (graph : String → SpGraphData)
    (data : List (String × String)) :
    Except AccessError (List (String × String)) × Nat :=
  match alookup data "client_id" with
  | none => (.error .authConfigValidationError, 0)
  | some client_id =>
    if client_id = "auto_create" then (.ok [], 0)
    else
      match get_app_auth_info graph client_id with
      | .error e => (.error e, 1)
      | .ok auth_info =>
        if WORKSPACE_ROLES_DICT.all (fun role => (alookup auth_info role.2).isSome) then
          (.ok auth_info, 1)
        else (.error .authConfigValidationError, 1)

end AzureTRE

namespace AzureTRE

/-- C10: with `client_id = "auto_create"`, the function returns the
empty auth-info mapping with zero directory calls for every directory
oracle — and that empty mapping would fail the required-role-mapping
check, so the check is bypassed on this path. -/
theorem extract_auto_create_bypasses (graph : String → SpGraphData)
    (data : List (String × String))
    (h : alookup data "client_id" = some "auto_create") :
    extract_workspace_auth_information graph data = (.ok [], 0)
    ∧ WORKSPACE_ROLES_DICT.all
        (fun role => (alookup ([] : List (String × String)) role.2).isSome) = false := by
  constructor
  · simp [extract_workspace_auth_information, h]
  · decide

/-- C10 witness: the sentinel input, against a directory oracle that
would answer every lookup, still returns the empty mapping without a
call. -/
theorem extract_auto_create_bypasses_witness :
    extract_workspace_auth_information
      (fun _ => ⟨some [⟨"spobj", ["scope"],
        [⟨"WorkspaceOwner", "own"⟩, ⟨"WorkspaceResearcher", "res"⟩,
         ⟨"AirlockManager", "air"⟩]⟩]⟩)
      [("client_id", "auto_create")] = (.ok [], 0) :=
  (extract_auto_create_bypasses
    (fun _ => ⟨some [⟨"spobj", ["scope"],
      [⟨"WorkspaceOwner", "own"⟩, ⟨"WorkspaceResearcher", "res"⟩,
       ⟨"AirlockManager", "air"⟩]⟩]⟩)
    [("client_id", "auto_create")] rfl).1

/-- `models/domain/authentication.User` as built by
`_get_user_from_token`: id, display name, email and the role claims. -/
structure User where
  id : String
  name : String
  email : String
  roles : List String
deriving DecidableEq, Repr

/-- A decoded token payload, reduced to the claims
`_get_user_from_token` reads (`oid`, `name`, `email`, `roles`); each is
optional because the payload is a Python dict. -/
structure Claims where
  oid : Option String
  name : Option String
  email : Option String
  roles : Option (List String)
deriving DecidableEq, Repr

/-- Failure kinds of a token-verification attempt (`jwt.decode` /
key lookup inside `_decode_token`); only `invalidSignature` is
`jwt.exceptions.InvalidSignatureError`. -/
inductive VerifyError where
  | invalidSignature
  | invalidAudience
  | expiredSignature
  | malformedToken
  | keyNotFound
deriving DecidableEq, Repr

/-- Failure of the workspace repository's `get_workspace_by_id`:
`EntityDoesNotExist` or any other exception. -/
inductive DbError where
  | entityDoesNotExist
  | otherError
deriving DecidableEq, Repr

/-- The per-request outcome of `AzureADAuthorization.__call__`:
return the user, raise an `HTTPException` with the given status code, or
let a verification exception escape uncaught. -/
inductive GateResult where
  | allow : User → GateResult
  | deny : Nat → GateResult
  | uncaught : VerifyError → GateResult
deriving DecidableEq, Repr

/-- The request as `__call__` sees it: the optional `workspace_id` path
parameter (the bearer token itself is fixed per request and folded into
the environment's `decodeToken`). -/
structure GateRequest where
  workspace_id : Option String
deriving DecidableEq, Repr

/-- The gate's collaborators for one request: the workspace repository
lookup, the outcome of `_decode_token` for this request's token as a
function of the audience, and `config.API_AUDIENCE`. -/
structure GateEnv where
  lookupWorkspace : String → Except DbError Workspace
  decodeToken : String → Except VerifyError Claims
  apiAudience : String

/-- `AzureADAuthorization._get_user_from_token` (lines 115-122):
`decoded_token['oid']` raises `KeyError` when absent (embedded as
`.error ()`); name, email and roles fall back to defaults via `.get`. -/
def get_user_from_token (decoded_token : Claims) : Except Unit User :=
  match decoded_token.oid with
  | none => .error ()
  | some user_id =>
    .ok ⟨user_id, decoded_token.name.getD "", decoded_token.email.getD "",
         decoded_token.roles.getD []⟩

/-- `AzureADAuthorization._fetch_ws_app_reg_id_from_ws_id` (lines 95-113):
401 when no `workspace_id` path parameter; 404 when the repository
raises `EntityDoesNotExist`; 401 on any other exception (including a
missing `client_id` property, a `KeyError` caught by the generic
handler); otherwise the workspace's `client_id`. The error carries the
HTTP status code of the raised `HTTPException`. -/
def fetch_ws_app_reg_id_from_ws_id (env : GateEnv) (request : GateRequest) :
    Except Nat String :=
  match request.workspace_id with
  | none => .error 401
  | some workspace_id =>
    match env.lookupWorkspace workspace_id with
    | .error .entityDoesNotExist => .error 404
    | .error .otherError => .error 401
    | .ok workspace =>
      match alookup workspace.properties "client_id" with
      | some ws_app_reg_id => .ok ws_app_reg_id
      | none => .error 401

/-- The first verification attempt of `__call__` (lines 54-63): when the
request has a `workspace_id` and a workspace role is required, fetch the
workspace app registration id and decode against it; every exception in
the `try` block — including the 404/401 `HTTPException`s raised by
`fetch_ws_app_reg_id_from_ws_id` — is swallowed by `except Exception`,
leaving `decoded_token = None`. -/
def ws_attempt (env : GateEnv) (request : GateRequest) (rr : List String) :
    Option Claims :=
  if request.workspace_id.isSome
      && any_role_in (WORKSPACE_ROLES_DICT.map Prod.fst) rr then
    match fetch_ws_app_reg_id_from_ws_id env request with
    | .error _ => none
    | .ok app_reg_id =>
      match env.decodeToken app_reg_id with
      | .error _ => none
      | .ok claims => some claims
  else none

/-- The token-decoding phase of `__call__` (lines 51-75): the workspace
attempt, then — if it left `decoded_token = None` and a core role is
required — the core-audience attempt, which catches only
`InvalidSignatureError` (lines 66-71) and lets any other failure kind
escape; a still-undecoded token is denied with 401 (lines 74-75). An
`.error` carries the gate outcome that ends the request early. -/
def gate_decode (env : GateEnv) (request : GateRequest) (rr : List String) :
    Except GateResult Claims :=
  match ws_attempt env request rr with
  | some claims => .ok claims
  | none =>
    if any_role_in TRE_CORE_ROLES rr then
      match env.decodeToken env.apiAudience with
      | .ok claims => .ok claims
      | .error .invalidSignature => .error (.deny 401)
      | .error e => .error (.uncaught e)
    else .error (.deny 401)

/-- `AzureADAuthorization.__call__` (lines 47-93) with
`require_one_of_roles = rr`: decode the token (trying the workspace
audience, then the core audience), resolve the user (any failure there
becomes 401, lines 77-82), then deny 403 unless some user role is
required (lines 84-91; the `HTTPException` raised inside that `try` is
re-raised as 403 by its own `except`, so the outcome is 403 either
way). -/
def azureADCall (env : GateEnv) (request : GateRequest) (rr : List String) :
    GateResult :=
  match gate_decode env request rr with
  | .error outcome => outcome
  | .ok claims =>
    match get_user_from_token claims with
    | .error _ => .deny 401
    | .ok user =>
      if any_role_in user.roles rr then .allow user else .deny 403

/-- C2: with `sp_id` and all three role-id mappings configured,
`get_workspace_role` resolves the first matching role in the priority
order Owner, Researcher, AirlockManager; in particular Owner wins over
Researcher when both assignments are present, and the result is `NoRole`
when no configured role id matches. -/
theorem get_workspace_role_priority (workspace : Workspace)
    (uras : List RoleAssignment) (sp o r a : String)
    (hsp : alookup workspace.properties "sp_id" = some sp)
    (ho : alookup workspace.properties "app_role_id_workspace_owner" = some o)
    (hr : alookup workspace.properties "app_role_id_workspace_researcher" = some r)
    (ha : alookup workspace.properties "app_role_id_workspace_airlock_manager" = some a) :
    get_workspace_role workspace uras = .ok (
      if (⟨sp, o⟩ : RoleAssignment) ∈ uras then .Owner
      else if (⟨sp, r⟩ : RoleAssignment) ∈ uras then .Researcher
      else if (⟨sp, a⟩ : RoleAssignment) ∈ uras then .AirlockManager
      else .NoRole)
    ∧ ((⟨sp, o⟩ : RoleAssignment) ∈ uras → (⟨sp, r⟩ : RoleAssignment) ∈ uras →
        get_workspace_role workspace uras = .ok .Owner)
    ∧ ((⟨sp, o⟩ : RoleAssignment) ∉ uras → (⟨sp, r⟩ : RoleAssignment) ∉ uras →
        (⟨sp, a⟩ : RoleAssignment) ∉ uras →
        get_workspace_role workspace uras = .ok .NoRole) := by
  unfold get_workspace_role
  rw [hsp, ho, hr, ha]
  refine ⟨?_, ?_, ?_⟩
  · split_ifs <;> simp [*]
  · intro h1 _
    simp [h1]
  · intro h1 h2 h3
    simp [h1, h2, h3]

/-- C2 witness: a concrete workspace holding all four keys, a caller
assigned both the owner and the researcher role ids, resolved to Owner. -/
theorem get_workspace_role_priority_witness :
    get_workspace_role
      ⟨[("sp_id", "sp1"), ("app_role_id_workspace_owner", "own"),
        ("app_role_id_workspace_researcher", "res"),
        ("app_role_id_workspace_airlock_manager", "air")]⟩
      [⟨"sp1", "res"⟩, ⟨"sp1", "own"⟩] = .ok .Owner := by
  have h := get_workspace_role_priority
    ⟨[("sp_id", "sp1"), ("app_role_id_workspace_owner", "own"),
      ("app_role_id_workspace_researcher", "res"),
      ("app_role_id_workspace_airlock_manager", "air")]⟩
    [⟨"sp1", "res"⟩, ⟨"sp1", "own"⟩]
    "sp1" "own" "res" "air" (by decide) (by decide) (by decide) (by decide)
  exact h.2.1 (by decide) (by decide)

/-- C8: when any of the three role-id mappings is missing from the
workspace properties, `get_workspace_role` fails with
`AuthConfigValidationError`, regardless of the caller's role
assignments. -/
theorem get_workspace_role_missing_mapping (workspace : Workspace)
    (uras : List RoleAssignment)
    (h : alookup workspace.properties "app_role_id_workspace_owner" = none
       ∨ alookup workspace.properties "app_role_id_workspace_researcher" = none
       ∨ alookup workspace.properties "app_role_id_workspace_airlock_manager" = none) :
    get_workspace_role workspace uras = .error .authConfigValidationError := by
  unfold get_workspace_role
  split
  · rfl
  · split
    · exfalso
      rcases h with h | h | h <;> simp_all
    · rfl

/-- C8 witness: a workspace with `sp_id`, owner and airlock ids but no
researcher id fails with `AuthConfigValidationError` even though the
caller holds the owner assignment. -/
theorem get_workspace_role_missing_mapping_witness :
    get_workspace_role
      ⟨[("sp_id", "sp1"), ("app_role_id_workspace_owner", "own"),
        ("app_role_id_workspace_airlock_manager", "air")]⟩
      [⟨"sp1", "own"⟩] = .error .authConfigValidationError :=
  get_workspace_role_missing_mapping
    ⟨[("sp_id", "sp1"), ("app_role_id_workspace_owner", "own"),
      ("app_role_id_workspace_airlock_manager", "air")]⟩
    [⟨"sp1", "own"⟩] (Or.inr (Or.inl (by decide)))

/-- C9: when `sp_id` is absent from the workspace properties,
`get_workspace_role` fails with `AuthConfigValidationError` for every
assignment list — the service-principal id is a precondition checked
before any membership test, in addition to the three role-id mappings. -/
theorem get_workspace_role_missing_sp_id (workspace : Workspace)
    (uras : List RoleAssignment)
    (h : alookup workspace.properties "sp_id" = none) :
    get_workspace_role workspace uras = .error .authConfigValidationError := by
  unfold get_workspace_role
  rw [h]

/-- C1 counterexample: both verification attempts fail with
`InvalidAudience` — a verification failure kind — yet the call does not
deny with 401: the core-audience `except` clause catches only
`InvalidSignatureError`, so the error escapes uncaught (raw). -/
theorem azureADCall_unauthenticated_counterexample :
    azureADCall
        ⟨fun _ => .ok ⟨[("client_id", "wsapp")]⟩,
         fun _ => .error .invalidAudience, "api"⟩
        ⟨some "ws1"⟩ ["WorkspaceOwner", "TREAdmin"]
      = .uncaught .invalidAudience
    ∧ ¬ (azureADCall
        ⟨fun _ => .ok ⟨[("client_id", "wsapp")]⟩,
         fun _ => .error .invalidAudience, "api"⟩
        ⟨some "ws1"⟩ ["WorkspaceOwner", "TREAdmin"]
      = .deny 401) := by
  constructor
  · rfl
  · decide

/-- C1 (amended): when the workspace attempt yields no decoded token,
the call denies with 401 exactly when the core attempt is inapplicable
(no core role required) or fails with `InvalidSignature`; a core-attempt
failure of any other kind propagates raw instead of being turned into
401. -/
theorem azureADCall_unauthenticated (env : GateEnv) (request : GateRequest)
    (rr : List String)
    (hws : ws_attempt env request rr = none) :
    (any_role_in TRE_CORE_ROLES rr = false →
      azureADCall env request rr = .deny 401)
    ∧ (env.decodeToken env.apiAudience = .error .invalidSignature →
      azureADCall env request rr = .deny 401)
    ∧ (∀ e : VerifyError, e ≠ .invalidSignature →
      any_role_in TRE_CORE_ROLES rr = true →
      env.decodeToken env.apiAudience = .error e →
      azureADCall env request rr = .uncaught e) := by
  refine ⟨?_, ?_, ?_⟩
  · intro h
    simp [azureADCall, gate_decode, hws, h]
  · intro h
    by_cases hc : any_role_in TRE_CORE_ROLES rr
    · simp [azureADCall, gate_decode, hws, hc, h]
    · simp [azureADCall, gate_decode, hws, hc]
  · intro e he hc hd
    cases e <;> simp_all [azureADCall, gate_decode, hws]

/-- C1 witness: workspace attempt fails (token signature invalid for the
workspace audience), core attempt fails with `InvalidSignature`: the
call denies with 401. -/
theorem azureADCall_unauthenticated_witness :
    azureADCall
        ⟨fun _ => .ok ⟨[("client_id", "wsapp")]⟩,
         fun _ => .error .invalidSignature, "api"⟩
        ⟨some "ws1"⟩ ["WorkspaceOwner", "TREAdmin"]
      = .deny 401 :=
  (azureADCall_unauthenticated
      ⟨fun _ => .ok ⟨[("client_id", "wsapp")]⟩,
       fun _ => .error .invalidSignature, "api"⟩
      ⟨some "ws1"⟩ ["WorkspaceOwner", "TREAdmin"] rfl).2.1 rfl

/-- C3: once a verification attempt has produced claims and a user was
resolved from them, the call allows (returns that user) iff some user
role is among the required roles, and denies with 403 when the
intersection is empty. -/
theorem azureADCall_role_intersection (env : GateEnv) (request : GateRequest)
    (rr : List String) (claims : Claims) (user : User)
    (hdec : gate_decode env request rr = .ok claims)
    (huser : get_user_from_token claims = .ok user) :
    (azureADCall env request rr = .allow user ↔ ∃ role ∈ user.roles, role ∈ rr)
    ∧ (¬ (∃ role ∈ user.roles, role ∈ rr) →
      azureADCall env request rr = .deny 403) := by
  have hany : any_role_in user.roles rr = true ↔ ∃ role ∈ user.roles, role ∈ rr := by
    simp [any_role_in, List.any_eq_true]
  have hcall : azureADCall env request rr
      = if any_role_in user.roles rr then .allow user else .deny 403 := by
    simp [azureADCall, hdec, huser]
  rw [hcall]
  constructor
  · by_cases hb : any_role_in user.roles rr
    · simp [hb, hany.mp hb]
    · rw [if_neg hb, ← hany]
      simp [hb]
  · intro hne
    have hb : any_role_in user.roles rr = false :=
      Bool.eq_false_iff.mpr (fun hb' => hne (hany.mp hb'))
    simp [hb]

/-- C3 witness: the spec's scenario — core verification succeeds with
claims `oid = "u1"`, `roles = ["TREAdmin"]`, required roles
`["TREAdmin", "TREUser"]` — allows with that user. -/
theorem azureADCall_role_intersection_witness :
    azureADCall
        ⟨fun _ => .error .entityDoesNotExist,
         fun _ => .ok ⟨some "u1", none, none, some ["TREAdmin"]⟩, "api"⟩
        ⟨none⟩ ["TREAdmin", "TREUser"]
      = .allow ⟨"u1", "", "", ["TREAdmin"]⟩ :=
  ((azureADCall_role_intersection
      ⟨fun _ => .error .entityDoesNotExist,
       fun _ => .ok ⟨some "u1", none, none, some ["TREAdmin"]⟩, "api"⟩
      ⟨none⟩ ["TREAdmin", "TREUser"]
      ⟨some "u1", none, none, some ["TREAdmin"]⟩
      ⟨"u1", "", "", ["TREAdmin"]⟩ rfl rfl).1).mpr
    ⟨"TREAdmin", by decide, by decide⟩

/-- C4 (code bug evidence): the workspace lookup raises
`EntityDoesNotExist`, and `_fetch_ws_app_reg_id_from_ws_id` does raise a
404 `HTTPException` — but the only call site wraps it in
`except Exception: pass`, so the middleware call returns 401, and the
404 never reaches the caller. -/
theorem azureADCall_entity_not_found_swallowed :
    fetch_ws_app_reg_id_from_ws_id
        ⟨fun _ => .error .entityDoesNotExist,
         fun _ => .error .invalidSignature, "api"⟩
        ⟨some "ws1"⟩ = .error 404
    ∧ azureADCall
        ⟨fun _ => .error .entityDoesNotExist,
         fun _ => .error .invalidSignature, "api"⟩
        ⟨some "ws1"⟩ ["WorkspaceOwner"] = .deny 401 := by
  constructor <;> rfl

/-- C9 witness: all three role-id mappings present but no `sp_id`; the
caller's owner assignment is never consulted. -/
theorem get_workspace_role_missing_sp_id_witness :
    get_workspace_role
      ⟨[("app_role_id_workspace_owner", "own"),
        ("app_role_id_workspace_researcher", "res"),
        ("app_role_id_workspace_airlock_manager", "air")]⟩
      [⟨"sp1", "own"⟩] = .error .authConfigValidationError :=
  get_workspace_role_missing_sp_id
    ⟨[("app_role_id_workspace_owner", "own"),
      ("app_role_id_workspace_researcher", "res"),
      ("app_role_id_workspace_airlock_manager", "air")]⟩
    [⟨"sp1", "own"⟩] (by decide)

end AzureTRE
